import Mathlib

/-!
Verification development for the area-selection library: the rectangle
model, the constraint engine, the interaction handlers of `Core`
(core.js), the wrapper methods of `AreaSelection` (index.js) and option
parsing. Pixel coordinates are modelled as rationals; JavaScript float
arithmetic is idealized as exact arithmetic. The `Box` class (box.js) is
not among the sources, so its operations are modelled from the
specification (sections 4.1 and 4.2); every other definition is a direct
transcription of the JavaScript source.
-/

namespace ASel

/-- Rectangle model: two corner points, as in the Box constructor. -/
structure Box where
  x1 : ℚ
  y1 : ℚ
  x2 : ℚ
  y2 : ℚ
deriving DecidableEq, Repr

/-- Modelled from the spec (4.1): width is the absolute difference of the
corner x coordinates, never negative. -/
def Box.width (b : Box) : ℚ := |b.x2 - b.x1|

/-- Modelled from the spec (4.1): height is the absolute difference of the
corner y coordinates, never negative. -/
def Box.height (b : Box) : ℚ := |b.y2 - b.y1|

/-- Modelled from the spec (4.1): maps a normalized point to absolute
coordinates, `x1 + rx*(x2-x1)` and `y1 + ry*(y2-y1)`; the spec notes this
is not symmetric under corner swap. -/
def Box.getAbsolutePoint (b : Box) (p : ℚ × ℚ) : ℚ × ℚ :=
  (b.x1 + p.1 * (b.x2 - b.x1), b.y1 + p.2 * (b.y2 - b.y1))

/-- Modelled from the spec (4.1): recomputes both corners so that the
rectangle has the given width and height while the absolute position of
the anchor is preserved. -/
def Box.resize (b : Box) (w h : ℚ) (origin : ℚ × ℚ) : Box :=
  let p := b.getAbsolutePoint origin
  let nx1 := p.1 - w * origin.1
  let ny1 := p.2 - h * origin.2
  ⟨nx1, ny1, nx1 + w, ny1 + h⟩

/-- Modelled from the spec (4.1): scaling is resizing both dimensions by
the same factor about the anchor. -/
def Box.scale (b : Box) (factor : ℚ) (origin : ℚ × ℚ) : Box :=
  b.resize (b.width * factor) (b.height * factor) origin

/-- Modelled from the spec (4.1 and the call sites in 4.4): move places the
first corner at the given coordinate on each axis, a missing value leaving
that axis at its current coordinate, and preserves the size. -/
def Box.move (b : Box) (x y : Option ℚ) : Box :=
  let w := b.width
  let h := b.height
  let nx := x.getD b.x1
  let ny := y.getD b.y1
  ⟨nx, ny, nx + w, ny + h⟩

/-- Truthiness of the aspect-ratio option, as tested by `if (ratio)` style
guards in the source: null and 0 are falsy. -/
def truthyRatio : Option ℚ → Bool
  | none => false
  | some q => decide (q ≠ 0)

/-- Modelled from the spec (4.2, 4.3): with no ratio the rectangle is
unchanged; otherwise the mode names the dimension that is recomputed from
the other (4.3: vertical-only handles derive width from height under mode
width), any mode other than width growing the height, and the result is
resized about the anchor. -/
def Box.constrainToRatio (b : Box) (ratio : Option ℚ) (origin : ℚ × ℚ)
    (mode : String) : Box :=
  match ratio with
  | none => b
  | some r =>
    if mode = ("width" : String) then b.resize (b.height / r) b.height origin
    else b.resize b.width (b.width * r) origin

/-- Clamp of one dimension into optional min and max bounds; the max bound
is applied last, so it wins when min exceeds max (spec section 8). -/
def clampDim (v : ℚ) (mn mx : Option ℚ) : ℚ :=
  let v1 := match mn with
    | none => v
    | some m => max v m
  match mx with
  | none => v1
  | some m => min v1 m

/-- Modelled from the spec (4.2): width and height are clamped into their
optional bounds independently; when a truthy ratio is given, the height is
recomputed from the clamped width and re-checked against its own bounds
(min and max win over the ratio); the spec leaves the primary dimension
unspecified and width is chosen here. The result is resized about the
anchor. -/
def Box.constrainToSize (b : Box) (maxW maxH minW minH : Option ℚ)
    (origin : ℚ × ℚ) (ratio : Option ℚ) : Box :=
  let w1 := clampDim b.width minW maxW
  let h1 := clampDim b.height minH maxH
  if truthyRatio ratio then
    let r := ratio.getD 0
    let h2 := clampDim (w1 * r) minH maxH
    b.resize w1 h2 origin
  else
    b.resize w1 h1 origin

/-- Room available to a rectangle along one axis when it grows away from an
anchor of given normalized component at absolute coordinate `a` inside a
boundary of length `len`: growth to one side for components 0 and 1,
symmetric growth otherwise. -/
def boundRoom (o a len : ℚ) : ℚ :=
  if o = 0 then len - a else if o = 1 then a else 2 * min a (len - a)

/-- Modelled from the spec (4.2): the rectangle is reduced about the anchor
whenever its width or height exceeds the room the boundary leaves for it in
the direction of growth determined by the anchor component. -/
def Box.constrainToBoundary (b : Box) (bw bh : ℚ) (origin : ℚ × ℚ) : Box :=
  let p := b.getAbsolutePoint origin
  let maxW := boundRoom origin.1 p.1 bw
  let maxH := boundRoom origin.2 p.2 bh
  let b1 := if b.width > maxW then b.scale (maxW / b.width) origin else b
  if b1.height > maxH then b1.scale (maxH / b1.height) origin else b1

/-- Handle descriptor, as in core.js: a normalized position, the vector of
movable sides in the order top, right, bottom, left, and a direction label. -/
structure Handle where
  position : ℚ × ℚ
  constraints : ℕ × ℕ × ℕ × ℕ
  direction : String
deriving DecidableEq, Repr

/-- The eight handles of core.js in source order. -/
def HANDLES : List Handle :=
  [⟨(0, 0), (1, 0, 0, 1), ("nw" : String)⟩,
   ⟨(1/2, 0), (1, 0, 0, 0), ("n" : String)⟩,
   ⟨(1, 0), (1, 1, 0, 0), ("ne" : String)⟩,
   ⟨(1, 1/2), (0, 1, 0, 0), ("e" : String)⟩,
   ⟨(1, 1), (0, 1, 1, 0), ("se" : String)⟩,
   ⟨(1/2, 1), (0, 0, 1, 0), ("s" : String)⟩,
   ⟨(0, 1), (0, 0, 1, 1), ("sw" : String)⟩,
   ⟨(0, 1/2), (0, 0, 0, 1), ("w" : String)⟩]

/-- Test of `handle.constraints[0] === 1` from core.js. -/
def topMovable (h : Handle) : Bool := h.constraints.1 == 1

/-- Test of `handle.constraints[1] === 1` from core.js. -/
def rightMovable (h : Handle) : Bool := h.constraints.2.1 == 1

/-- Test of `handle.constraints[2] === 1` from core.js. -/
def bottomMovable (h : Handle) : Bool := h.constraints.2.2.1 == 1

/-- Test of `handle.constraints[3] === 1` from core.js. -/
def leftMovable (h : Handle) : Bool := h.constraints.2.2.2 == 1

theorem box_move_width (b : Box) (x y : Option ℚ) : (b.move x y).width = b.width := by
  simp [Box.move, Box.width, abs_of_nonneg, abs_nonneg]

theorem box_move_height (b : Box) (x y : Option ℚ) : (b.move x y).height = b.height := by
  simp [Box.move, Box.height, abs_of_nonneg, abs_nonneg]

/-- Parsed size option of core.js parseOptions: width, height and unit; the
unit entry is removed by convertToPixels, hence optional. -/
structure SizeB where
  width : Option ℚ
  height : Option ℚ
  unit : Option String
deriving DecidableEq, Repr

/-- Parsed options of core.js parseOptions. Callbacks are modelled by
whether a function was configured; the onInitialize callback of the source
is named onInitCb here. -/
structure Options where
  aspectRatio : Option ℚ
  maxSize : SizeB
  minSize : SizeB
  startSize : SizeB
  returnMode : String
  onInitCb : Bool
  onSelectStart : Bool
  onSelectMove : Bool
  onSelectEnd : Bool
deriving DecidableEq, Repr

/-- Raw aspectRatio value of a user options object: a number, an array of
two numbers, or a non-number non-array value such as null. -/
inductive JSRatio
  | num (q : ℚ)
  | arr (a b : ℚ)
  | nul
deriving DecidableEq, Repr

/-- Raw size entry of a user options object: either an array `[w, h, unit?]`
or an already-parsed record, whose numeric indices are undefined. -/
inductive JSSize
  | arr (w h : ℚ) (unit : Option String)
  | obj (s : SizeB)
deriving DecidableEq, Repr

/-- Raw options object handed to parseOptions; a missing field is
undefined (or null for the size fields, treated alike by the source).
A callback field records whether the value is a function. -/
structure RawOptions where
  aspectRatio : Option JSRatio
  maxSize : Option JSSize
  minSize : Option JSSize
  startSize : Option JSSize
  returnMode : Option String
  onInitCb : Option Bool
  onSelectStart : Option Bool
  onSelectMove : Option Bool
  onSelectEnd : Option Bool
deriving DecidableEq, Repr

/-- The empty raw options object, `{}`. -/
def emptyRaw : RawOptions := ⟨none, none, none, none, none, none, none, none, none⟩

/-- JavaScript coercion `value || null` on a number: 0 is falsy and becomes
null. -/
def zeroToNull (v : ℚ) : Option ℚ := if v = 0 then none else some v

/-- JavaScript coercion `value || default` on an optional string: undefined
and the empty string are falsy. -/
def jsOrStr (u : Option String) (d : String) : String :=
  match u with
  | none => d
  | some s => if s = ("" : String) then d else s

/-- Size parsing of core.js parseOptions: `{ width: opts.size[0] || null,
height: opts.size[1] || null, unit: opts.size[2] || default }`; indexing a
non-array record yields undefined, hence null width and height. -/
def parseSize (j : JSSize) (dUnit : String) : SizeB :=
  match j with
  | .arr w h u => ⟨zeroToNull w, zeroToNull h, some (jsOrStr u dUnit)⟩
  | .obj _ => ⟨none, none, some dUnit⟩

/-- Lowercasing of `returnMode.toLowerCase()`, written as a structural map
over the characters. -/
def jsToLower (s : String) : String := ⟨s.data.map Char.toLower⟩

/-- Return-mode validation of core.js parseOptions: a provided string is
lowercased and must be one of real, ratio, raw, otherwise the call throws
`Invalid return mode.`. -/
def parseReturnMode (o : Option String) : Except String (Option String) :=
  match o with
  | none => Except.ok none
  | some s =>
    let t := jsToLower s
    if t = ("real" : String) ∨ t = ("ratio" : String) ∨ t = ("raw" : String) then
      Except.ok (some t)
    else Except.error ("Invalid return mode.")

/-- Direct transcription of Core.parseOptions from core.js: parses the
aspect ratio (a number is taken as is, an array `[a, b]` becomes `b / a`),
the three sizes, the callbacks and the return mode, and fills defaults for
missing values. A thrown error is modelled by the error branch. -/
def parseOptions (opts : RawOptions) : Except String Options :=
  let aspectRatio : Option ℚ :=
    match opts.aspectRatio with
    | some (JSRatio.num q) => some q
    | some (JSRatio.arr a b) => some (b / a)
    | _ => none
  let maxSize : Option SizeB := opts.maxSize.map (fun j => parseSize j ("px"))
  let minSize : Option SizeB := opts.minSize.map (fun j => parseSize j ("px"))
  let startSize : Option SizeB := opts.startSize.map (fun j => parseSize j ("%"))
  match parseReturnMode opts.returnMode with
  | Except.error e => Except.error e
  | Except.ok rm =>
    Except.ok
      { aspectRatio := aspectRatio
        maxSize := maxSize.getD ⟨none, none, none⟩
        minSize := minSize.getD ⟨none, none, none⟩
        startSize := startSize.getD ⟨some 100, some 100, some ("%")⟩
        returnMode := rm.getD ("real")
        onInitCb := opts.onInitCb == some true
        onSelectStart := opts.onSelectStart == some true
        onSelectMove := opts.onSelectMove == some true
        onSelectEnd := opts.onSelectEnd == some true }

/-- Percent-to-pixel conversion of one size entry by convertToPixels: a
percent size is scaled by the container dimensions and the unit entry is
deleted in every case. -/
def convertSize (s : SizeB) (cw ch : ℚ) : SizeB :=
  if s.unit = some ("%") then
    ⟨s.width.map (fun w => w / 100 * cw), s.height.map (fun h => h / 100 * ch), none⟩
  else ⟨s.width, s.height, none⟩

/-- The convertToPixels closure of parseOptions, applied to the maxSize,
minSize and startSize entries with the container dimensions. -/
def convertToPixels (o : Options) (cw ch : ℚ) : Options :=
  { o with
    maxSize := convertSize o.maxSize cw ch
    minSize := convertSize o.minSize cw ch
    startSize := convertSize o.startSize cw ch }

/-- View of a parsed options object when it is read again as a raw options
object, as happens after `Object.assign(this.options, opts)`: the aspect
ratio is a number or null, the sizes are records without numeric indices,
the return mode is the stored string, and configured callbacks are
functions. -/
def toRawOptions (o : Options) : RawOptions :=
  { aspectRatio := some (match o.aspectRatio with
      | some q => JSRatio.num q
      | none => JSRatio.nul)
    maxSize := some (JSSize.obj o.maxSize)
    minSize := some (JSSize.obj o.minSize)
    startSize := some (JSSize.obj o.startSize)
    returnMode := some o.returnMode
    onInitCb := some o.onInitCb
    onSelectStart := some o.onSelectStart
    onSelectMove := some o.onSelectMove
    onSelectEnd := some o.onSelectEnd }

/-- Field-wise `Object.assign(base, opts)`: a field present in opts
overwrites the one of base. -/
def objectAssign (base opts : RawOptions) : RawOptions :=
  { aspectRatio := opts.aspectRatio.or base.aspectRatio
    maxSize := opts.maxSize.or base.maxSize
    minSize := opts.minSize.or base.minSize
    startSize := opts.startSize.or base.startSize
    returnMode := opts.returnMode.or base.returnMode
    onInitCb := opts.onInitCb.or base.onInitCb
    onSelectStart := opts.onSelectStart.or base.onSelectStart
    onSelectMove := opts.onSelectMove.or base.onSelectMove
    onSelectEnd := opts.onSelectEnd.or base.onSelectEnd }

/-- State of the `this.options` object after a call to setOptions: either a
freshly parsed options value, or, when parseOptions threw, the prior
options object left mutated in place by Object.assign. -/
inductive OptState
  | parsed (o : Options)
  | hybrid (r : RawOptions)
deriving DecidableEq, Repr

/-- Transcription of Core.setOptions from core.js up to the parse:
`this.options = Core.parseOptions(Object.assign(this.options, opts))`.
Object.assign mutates this.options before parseOptions runs, so on a throw
the instance is left holding the merged raw object. The first component is
the thrown or returned value, the second the final state of this.options. -/
def setOptions (st : Options) (opts : RawOptions) : Except String Options × OptState :=
  let merged := objectAssign (toRawOptions st) opts
  match parseOptions merged with
  | Except.ok o => (Except.ok o, OptState.parsed o)
  | Except.error e => (Except.error e, OptState.hybrid merged)

/-- Constructor option parsing from core.js: `Core.parseOptions(options || {})`;
a throw propagates out of the constructor before any instance state exists. -/
def constructorParse (options : Option RawOptions) : Except String Options :=
  parseOptions (options.getD emptyRaw)

/-- Geometry read from the excluded DOM collaborators: the bounding
rectangle and offset dimensions of the selection element, and the natural,
attribute and rendered dimensions of the target media element. A missing
naturalWidth or naturalHeight reads as 0. -/
structure Env where
  rectLeft : ℚ
  rectTop : ℚ
  rectWidth : ℚ
  rectHeight : ℚ
  offsetWidth : ℚ
  offsetHeight : ℚ
  naturalWidth : ℚ
  naturalHeight : ℚ
  elemWidth : ℚ
  elemHeight : ℚ
  targetRectWidth : ℚ
  targetRectHeight : ℚ
deriving DecidableEq, Repr

/-- Session data captured by onHandleMoveStart: the active handle, the
anchor in normalized coordinates and its absolute coordinates at capture
time. -/
structure ActiveHandle where
  handle : Handle
  originPoint : ℚ × ℚ
  originX : ℚ
  originY : ℚ
deriving DecidableEq, Repr

/-- Mutable instance state of Core that the claims touch: the parsed
options, the live box, the active resize session and the region-drag
offsets. -/
structure CoreState where
  options : Options
  box : Box
  activeHandle : ActiveHandle
  currentMove : ℚ × ℚ
deriving DecidableEq, Repr

/-- Value snapshot `{x, y, width, height}` returned by getValue. -/
structure Value where
  x : ℚ
  y : ℚ
  width : ℚ
  height : ℚ
deriving DecidableEq, Repr

/-- Lifecycle notifications delivered to configured callbacks, each
carrying the value snapshot passed to the callback. -/
inductive Event
  | selectStart (v : Option Value)
  | selectMove (v : Option Value)
  | selectEnd (v : Option Value)
deriving DecidableEq, Repr

/-- JavaScript `Math.round`: round half towards positive infinity. -/
def mathRound (q : ℚ) : ℚ := (⌊q + 1 / 2⌋ : ℤ)

/-- The round helper of core.js: `Number(Math.round(value + 'e' + decimals)
+ 'e-' + decimals)`; the exponent-string trick shifts the decimal point, so
it rounds to the given number of decimal places. -/
def round (value : ℚ) (decimals : ℕ) : ℚ :=
  mathRound (value * 10 ^ decimals) / 10 ^ decimals

/-- JavaScript coercion `a || b` on numbers: 0 is falsy. -/
def jsOrQ (a b : ℚ) : ℚ := if a = 0 then b else a

/-- Direct transcription of Core.getValue from core.js: the requested mode
defaults to the configured return mode; real scales by the natural-to-
rendered factor per axis and rounds, ratio divides by the rendered target
dimensions and rounds to 3 decimals, raw rounds the raw coordinates; any
other mode returns undefined. -/
def getValue (st : CoreState) (env : Env) (mode : Option String) : Option Value :=
  let m := mode.getD st.options.returnMode
  if m = ("real" : String) then
    let actualWidth := jsOrQ env.naturalWidth env.elemWidth
    let actualHeight := jsOrQ env.naturalHeight env.elemHeight
    let factorX := jsOrQ actualWidth env.targetRectWidth / env.targetRectWidth
    let factorY := jsOrQ actualHeight env.targetRectHeight / env.targetRectHeight
    some ⟨mathRound (st.box.x1 * factorX), mathRound (st.box.y1 * factorY),
          mathRound (st.box.width * factorX), mathRound (st.box.height * factorY)⟩
  else if m = ("ratio" : String) then
    some ⟨round (st.box.x1 / env.targetRectWidth) 3,
          round (st.box.y1 / env.targetRectHeight) 3,
          round (st.box.width / env.targetRectWidth) 3,
          round (st.box.height / env.targetRectHeight) 3⟩
  else if m = ("raw" : String) then
    some ⟨mathRound st.box.x1, mathRound st.box.y1,
          mathRound st.box.width, mathRound st.box.height⟩
  else none

/-- Direct transcription of Core.initializeBox from core.js: a box of the
start size at the top-left corner is constrained to ratio (default mode),
size and boundary in that order and then moved to the center of the
selection element. A null start dimension enters the arithmetic as 0. -/
def initializeBox (opts : Options) (env : Env) : Box :=
  let width := opts.startSize.width.getD 0
  let height := opts.startSize.height.getD 0
  let box0 : Box := ⟨0, 0, width, height⟩
  let box1 := box0.constrainToRatio opts.aspectRatio (1/2, 1/2) ("height")
  let box2 := box1.constrainToSize opts.maxSize.width opts.maxSize.height
    opts.minSize.width opts.minSize.height (1/2, 1/2) opts.aspectRatio
  let box3 := box2.constrainToBoundary env.offsetWidth env.offsetHeight (1/2, 1/2)
  let x := env.offsetWidth / 2 - box3.width / 2
  let y := env.offsetHeight / 2 - box3.height / 2
  box3.move (some x) (some y)

/-- Edge placement step of Core.onHandleMoveMoving (before flip handling):
on each axis the movable sides follow the mouse, the remaining sides of a
movable axis sit at the captured anchor coordinate, and an axis without
movable sides keeps the current box coordinates. -/
def handleRawBox (T R B L : Bool) (originX originY : ℚ) (box : Box)
    (mx my : ℚ) : Box :=
  let x1 := if L || R then originX else box.x1
  let x2 := if L || R then originX else box.x2
  let y1 := if T || B then originY else box.y1
  let y2 := if T || B then originY else box.y2
  let x1 := if L then mx else x1
  let x2 := if R then mx else x2
  let y1 := if T then my else y1
  let y2 := if B then my else y2
  ⟨x1, y1, x2, y2⟩

/-- Flip step of Core.onHandleMoveMoving: an axis is flipped when the
movable side crossed the captured anchor coordinate; the corner values of a
flipped axis are swapped and the anchor ratio of that axis is mirrored. -/
def handleFlip (T R B L : Bool) (originX originY : ℚ) (op : ℚ × ℚ)
    (mx my : ℚ) (raw : Box) : Box × (ℚ × ℚ) :=
  let fx := if L || R then (if L then decide (mx > originX) else decide (mx < originX))
    else false
  let fy := if T || B then (if T then decide (my > originY) else decide (my < originY))
    else false
  let x1 := if fx then raw.x2 else raw.x1
  let x2 := if fx then raw.x1 else raw.x2
  let y1 := if fy then raw.y2 else raw.y1
  let y2 := if fy then raw.y1 else raw.y2
  let o1 := if fx then 1 - op.1 else op.1
  let o2 := if fy then 1 - op.2 else op.2
  (⟨x1, y1, x2, y2⟩, (o1, o2))

/-- Mouse-to-container coordinates with the boundary clamp at the head of
Core.onHandleMoveMoving. -/
def handleMouse (env : Env) (mouseX mouseY : ℚ) : ℚ × ℚ :=
  let mx0 := mouseX - env.rectLeft
  let my0 := mouseY - env.rectTop
  let mx := if mx0 < 0 then 0 else if mx0 > env.rectWidth then env.rectWidth else mx0
  let my := if my0 < 0 then 0 else if my0 > env.rectHeight then env.rectHeight else my0
  (mx, my)

/-- Candidate box and adjusted anchor of Core.onHandleMoveMoving: edge
placement followed by the flip step, for the active handle of the session. -/
def handleCandidate (st : CoreState) (env : Env) (mouseX mouseY : ℚ) :
    Box × (ℚ × ℚ) :=
  let m := handleMouse env mouseX mouseY
  let h := st.activeHandle.handle
  let raw := handleRawBox (topMovable h) (rightMovable h) (bottomMovable h)
    (leftMovable h) st.activeHandle.originX st.activeHandle.originY st.box m.1 m.2
  handleFlip (topMovable h) (rightMovable h) (bottomMovable h) (leftMovable h)
    st.activeHandle.originX st.activeHandle.originY st.activeHandle.originPoint
    m.1 m.2 raw

/-- Ratio-mode selection of Core.onHandleMoveMoving: with both axes movable
the movement counts as vertical when the mouse lies beyond the ratio lines
through the candidate box corners, with only the vertical axis movable it
always does, and otherwise it never does; vertical movement selects mode
width, else mode height. -/
def selectRatioMode (ratio : ℚ) (MULTI TB : Bool) (box : Box) (my : ℚ) : String :=
  let isVertical :=
    if MULTI then
      decide (my > box.y1 + ratio * box.width) || decide (my < box.y2 - ratio * box.width)
    else TB
  if isVertical then ("width") else ("height")

/-- Ratio mode chosen by Core.onHandleMoveMoving for the current session
and mouse position. -/
def handleRatioMode (st : CoreState) (env : Env) (mouseX mouseY : ℚ) : String :=
  let h := st.activeHandle.handle
  let MULTI := (leftMovable h || rightMovable h) && (topMovable h || bottomMovable h)
  selectRatioMode (st.options.aspectRatio.getD 0) MULTI
    (topMovable h || bottomMovable h) (handleCandidate st env mouseX mouseY).1
    (handleMouse env mouseX mouseY).2

/-- Direct transcription of Core.onHandleMoveMoving from core.js: clamp the
mouse into the container, place and possibly flip the edges, then constrain
the candidate to ratio (when the configured ratio is truthy), to size and
to the boundary, store the box, and notify a configured onSelectMove with
the new value snapshot. -/
def onHandleMoveMoving (st : CoreState) (env : Env) (mouseX mouseY : ℚ) :
    CoreState × List Event :=
  let c := handleCandidate st env mouseX mouseY
  let box1 := c.1
  let origin := c.2
  let box2 :=
    if truthyRatio st.options.aspectRatio then
      box1.constrainToRatio st.options.aspectRatio origin
        (handleRatioMode st env mouseX mouseY)
    else box1
  let box3 := box2.constrainToSize st.options.maxSize.width st.options.maxSize.height
    st.options.minSize.width st.options.minSize.height origin st.options.aspectRatio
  let box4 := box3.constrainToBoundary env.offsetWidth env.offsetHeight origin
  let st1 := { st with box := box4 }
  (st1, if st.options.onSelectMove then [Event.selectMove (getValue st1 env none)] else [])

/-- Direct transcription of Core.onHandleMoveStart from core.js: the anchor
is the diametrically opposite normalized point of the handle, its absolute
coordinates are captured from the current box, and a configured
onSelectStart receives the current value snapshot. -/
def onHandleMoveStart (st : CoreState) (env : Env) (h : Handle) :
    CoreState × List Event :=
  let originPoint : ℚ × ℚ := (1 - h.position.1, 1 - h.position.2)
  let p := st.box.getAbsolutePoint originPoint
  let st1 := { st with activeHandle := ⟨h, originPoint, p.1, p.2⟩ }
  (st1, if st.options.onSelectStart then [Event.selectStart (getValue st1 env none)] else [])

/-- Direct transcription of Core.onHandleMoveEnd from core.js: a configured
onSelectEnd receives the current value snapshot. -/
def onHandleMoveEnd (st : CoreState) (env : Env) : CoreState × List Event :=
  (st, if st.options.onSelectEnd then [Event.selectEnd (getValue st env none)] else [])

/-- Direct transcription of Core.onRegionMoveStart from core.js: capture
the mouse offset from the first corner and notify a configured
onSelectStart. -/
def onRegionMoveStart (st : CoreState) (env : Env) (mouseX mouseY : ℚ) :
    CoreState × List Event :=
  let mx := mouseX - env.rectLeft
  let my := mouseY - env.rectTop
  let st1 := { st with currentMove := (mx - st.box.x1, my - st.box.y1) }
  (st1, if st.options.onSelectStart then [Event.selectStart (getValue st1 env none)] else [])

/-- Per-edge clamp of Core.onRegionMoveMoving: each edge that exceeds the
container bound pulls the box back by a move, in source order. -/
def regionClamp (cw ch : ℚ) (b : Box) : Box :=
  let b1 := if b.x1 < 0 then b.move (some 0) none else b
  let b2 := if b1.x2 > cw then b1.move (some (cw - b1.width)) none else b1
  let b3 := if b2.y1 < 0 then b2.move none (some 0) else b2
  if b3.y2 > ch then b3.move none (some (ch - b3.height)) else b3

/-- Direct transcription of Core.onRegionMoveMoving from core.js: move the
box so its first corner is the mouse minus the captured offset, clamp each
edge against the container bounds, and notify a configured onSelectMove. -/
def onRegionMoveMoving (st : CoreState) (env : Env) (mouseX mouseY : ℚ) :
    CoreState × List Event :=
  let mx := mouseX - env.rectLeft
  let my := mouseY - env.rectTop
  let moved := st.box.move (some (mx - st.currentMove.1)) (some (my - st.currentMove.2))
  let box1 := regionClamp env.rectWidth env.rectHeight moved
  let st1 := { st with box := box1 }
  (st1, if st.options.onSelectMove then [Event.selectMove (getValue st1 env none)] else [])

/-- Direct transcription of Core.onRegionMoveEnd from core.js: a configured
onSelectEnd receives the current value snapshot. -/
def onRegionMoveEnd (st : CoreState) (env : Env) : CoreState × List Event :=
  (st, if st.options.onSelectEnd then [Event.selectEnd (getValue st env none)] else [])

/-- The south-east handle, `this.handles[SOUTHEAST_HANDLE_IDX]` with index 4. -/
def seHandle : Handle := HANDLES.get ⟨4, by decide⟩

/-- Overlay mousedown of Core.attachOverlayEvents: save the current box,
replace it by a 1 by 1 box at the mouse position and run the handlestart
transition with the south-east handle. Returns the new state, the saved
box and the events fired. -/
def overlayMouseDown (st : CoreState) (env : Env) (clientX clientY : ℚ) :
    CoreState × Box × List Event :=
  let mx := clientX - env.rectLeft
  let my := clientY - env.rectTop
  let tmp := st.box
  let st1 := { st with box := (⟨mx, my, mx + 1, my + 1⟩ : Box) }
  let r := onHandleMoveStart st1 env seHandle
  (r.1, tmp, r.2)

/-- Overlay mousemove of Core.attachOverlayEvents: dispatch handlemove. -/
def overlayMouseMove (st : CoreState) (env : Env) (clientX clientY : ℚ) :
    CoreState × List Event :=
  onHandleMoveMoving st env clientX clientY

/-- Overlay mouseup of Core.attachOverlayEvents: when the box is still
exactly 1 by 1 the saved box is restored and nothing is dispatched,
otherwise handleend runs as for a normal resize end. -/
def overlayMouseUp (st : CoreState) (tmp : Box) (env : Env) :
    CoreState × List Event :=
  if st.box.width = 1 ∧ st.box.height = 1 then ({ st with box := tmp }, [])
  else onHandleMoveEnd st env

/-- An overlay click without drag: mousedown immediately followed by
mouseup, with the events of both steps concatenated. -/
def overlayClickGesture (st : CoreState) (env : Env) (clientX clientY : ℚ) :
    CoreState × List Event :=
  let d := overlayMouseDown st env clientX clientY
  let u := overlayMouseUp d.1 d.2.1 env
  (u.1, d.2.2 ++ u.2)

/-- Return value of the AreaSelection wrapper methods: the instance itself
or undefined. -/
inductive Ret
  | self
  | undef
deriving DecidableEq, Repr

/-- Direct transcription of AreaSelection.moveTo from index.js: move the
box, notify a configured onSelectEnd with the new value snapshot, and
return this. -/
def moveTo (st : CoreState) (env : Env) (x y : ℚ) : CoreState × List Event × Ret :=
  let st1 := { st with box := st.box.move (some x) (some y) }
  (st1, (if st1.options.onSelectEnd then [Event.selectEnd (getValue st1 env none)] else []),
    Ret.self)

/-- Direct transcription of AreaSelection.resizeTo from index.js; the
origin argument defaults to the center at the call sites. -/
def resizeTo (st : CoreState) (env : Env) (width height : ℚ) (origin : ℚ × ℚ) :
    CoreState × List Event × Ret :=
  let st1 := { st with box := st.box.resize width height origin }
  (st1, (if st1.options.onSelectEnd then [Event.selectEnd (getValue st1 env none)] else []),
    Ret.self)

/-- Direct transcription of AreaSelection.scaleBy from index.js; the origin
argument defaults to the center at the call sites. -/
def scaleBy (st : CoreState) (env : Env) (factor : ℚ) (origin : ℚ × ℚ) :
    CoreState × List Event × Ret :=
  let st1 := { st with box := st.box.scale factor origin }
  (st1, (if st1.options.onSelectEnd then [Event.selectEnd (getValue st1 env none)] else []),
    Ret.self)

/-- Direct transcription of AreaSelection.reset from index.js: rebuild the
box with initializeBox, notify a configured onSelectEnd, and return this. -/
def reset (st : CoreState) (env : Env) : CoreState × List Event × Ret :=
  let st1 := { st with box := initializeBox st.options env }
  (st1, (if st1.options.onSelectEnd then [Event.selectEnd (getValue st1 env none)] else []),
    Ret.self)

/-- The fixed normalization order of the spec (4.2): ratio, then size, then
boundary, all about the same anchor. -/
def specNormalize (ratio : Option ℚ) (mode : String) (maxS minS : SizeB)
    (bw bh : ℚ) (origin : ℚ × ℚ) (b : Box) : Box :=
  ((b.constrainToRatio ratio origin mode).constrainToSize maxS.width maxS.height
    minS.width minS.height origin ratio).constrainToBoundary bw bh origin

/-- Demo configuration used by the concrete scenarios: default sizes, raw
return mode, select callbacks configured. -/
def demoOptions : Options :=
  ⟨none, ⟨none, none, none⟩, ⟨none, none, none⟩, ⟨some 100, some 100, some ("%")⟩,
   ("raw"), false, true, true, true⟩

/-- Demo environment: a 100 by 100 container at the page origin, the target
media rendered at its natural 100 by 100 size. -/
def demoEnv : Env := ⟨0, 0, 100, 100, 100, 100, 100, 100, 100, 100, 100, 100⟩

/-- Demo instance state with live box (10, 10, 60, 60) and an idle session. -/
def demoState : CoreState :=
  ⟨demoOptions, ⟨10, 10, 60, 60⟩, ⟨seHandle, (0, 0), 0, 0⟩, (0, 0)⟩

theorem width_ite (c : Prop) [Decidable c] (b : Box) (x y : Option ℚ) :
    (if c then b.move x y else b).width = b.width := by
  split_ifs <;> simp [box_move_width]

theorem height_ite (c : Prop) [Decidable c] (b : Box) (x y : Option ℚ) :
    (if c then b.move x y else b).height = b.height := by
  split_ifs <;> simp [box_move_height]

theorem regionClamp_width (cw ch : ℚ) (b : Box) :
    (regionClamp cw ch b).width = b.width := by
  simp only [regionClamp]
  rw [width_ite, width_ite, width_ite, width_ite]

theorem regionClamp_height (cw ch : ℚ) (b : Box) :
    (regionClamp cw ch b).height = b.height := by
  simp only [regionClamp]
  rw [height_ite, height_ite, height_ite, height_ite]

/-- C5: on a region-drag move step the box is first moved so its first
corner is the pointer minus the captured offset, then each edge is clamped
against the container bounds by the direct per-edge comparisons of
regionClamp, and the clamp only repositions: the resulting width and
height equal those of the box before the step. -/
theorem claim5_region_move (st : CoreState) (env : Env) (mouseX mouseY : ℚ) :
    ((st.box.move (some (mouseX - env.rectLeft - st.currentMove.1))
        (some (mouseY - env.rectTop - st.currentMove.2))).x1 =
      mouseX - env.rectLeft - st.currentMove.1)
    ∧ (onRegionMoveMoving st env mouseX mouseY).1.box =
      regionClamp env.rectWidth env.rectHeight
        (st.box.move (some (mouseX - env.rectLeft - st.currentMove.1))
          (some (mouseY - env.rectTop - st.currentMove.2)))
    ∧ (onRegionMoveMoving st env mouseX mouseY).1.box.width = st.box.width
    ∧ (onRegionMoveMoving st env mouseX mouseY).1.box.height = st.box.height := by
  refine ⟨rfl, rfl, ?_, ?_⟩
  · show (regionClamp env.rectWidth env.rectHeight _).width = _
    rw [regionClamp_width, box_move_width]
  · show (regionClamp env.rectWidth env.rectHeight _).height = _
    rw [regionClamp_height, box_move_height]

/-- C6: getValue in ratio mode returns each coordinate divided by the
rendered target dimension for its axis, rounded to 3 decimal places; on
the rectangle (10, 10, 60, 60) in a 100 by 100 container it returns
x 0.1, y 0.1, width 0.5, height 0.5. -/
theorem claim6_ratio_value :
    (∀ st env, getValue st env (some ("ratio")) =
      some ⟨round (st.box.x1 / env.targetRectWidth) 3,
            round (st.box.y1 / env.targetRectHeight) 3,
            round (st.box.width / env.targetRectWidth) 3,
            round (st.box.height / env.targetRectHeight) 3⟩)
    ∧ getValue demoState demoEnv (some ("ratio")) =
      some ⟨1/10, 1/10, 1/2, 1/2⟩ := by
  constructor
  · intro st env
    rfl
  · simp only [getValue, demoState, demoEnv, demoOptions, Option.getD]
    norm_num [round, mathRound, Box.width, Box.height]
    exact fun h => absurd h (by decide)

/-- C7: on resize start the anchor is the diametrically opposite normalized
point of the handle, its absolute coordinates at that moment are captured
via getAbsolutePoint, the box is unchanged, and a configured onSelectStart
receives the current value snapshot; the synthetic overlay-create start
does the same with the south-east handle, capturing the fresh box corner. -/
theorem claim7_resize_start (st : CoreState) (env : Env) (h : Handle) :
    ((onHandleMoveStart st env h).1.activeHandle.handle = h)
    ∧ ((onHandleMoveStart st env h).1.activeHandle.originPoint =
        (1 - h.position.1, 1 - h.position.2))
    ∧ (((onHandleMoveStart st env h).1.activeHandle.originX,
        (onHandleMoveStart st env h).1.activeHandle.originY) =
        st.box.getAbsolutePoint (1 - h.position.1, 1 - h.position.2))
    ∧ ((onHandleMoveStart st env h).1.box = st.box)
    ∧ ((onHandleMoveStart st env h).2 =
        if st.options.onSelectStart then
          [Event.selectStart (getValue (onHandleMoveStart st env h).1 env none)]
        else [])
    ∧ (∀ cx cy : ℚ,
        (overlayMouseDown st env cx cy).1.activeHandle.handle = seHandle
        ∧ (overlayMouseDown st env cx cy).1.activeHandle.originPoint = (0, 0)
        ∧ (overlayMouseDown st env cx cy).1.activeHandle.originX = cx - env.rectLeft
        ∧ (overlayMouseDown st env cx cy).1.activeHandle.originY = cy - env.rectTop) := by
  refine ⟨rfl, rfl, rfl, rfl, rfl, ?_⟩
  intro cx cy
  have hse : seHandle = ⟨(1, 1), (0, 1, 1, 0), ("se")⟩ := rfl
  refine ⟨rfl, ?_, ?_, ?_⟩ <;>
    simp [overlayMouseDown, onHandleMoveStart, hse, Box.getAbsolutePoint]

/-- C9: each programmatic region operation of the AreaSelection wrapper
(moveTo, resizeTo, scaleBy, reset) fires a configured onSelectEnd with the
current value snapshot, with no interaction session involved, and returns
the instance itself. -/
theorem claim9_methods (st : CoreState) (env : Env) (x y w h f : ℚ) (o : ℚ × ℚ)
    (hcb : st.options.onSelectEnd = true) :
    ((moveTo st env x y).2.1 =
        [Event.selectEnd (getValue (moveTo st env x y).1 env none)]
      ∧ (moveTo st env x y).2.2 = Ret.self)
    ∧ ((resizeTo st env w h o).2.1 =
        [Event.selectEnd (getValue (resizeTo st env w h o).1 env none)]
      ∧ (resizeTo st env w h o).2.2 = Ret.self)
    ∧ ((scaleBy st env f o).2.1 =
        [Event.selectEnd (getValue (scaleBy st env f o).1 env none)]
      ∧ (scaleBy st env f o).2.2 = Ret.self)
    ∧ ((reset st env).2.1 =
        [Event.selectEnd (getValue (reset st env).1 env none)]
      ∧ (reset st env).2.2 = Ret.self) := by
  refine ⟨⟨?_, rfl⟩, ⟨?_, rfl⟩, ⟨?_, rfl⟩, ⟨?_, rfl⟩⟩ <;>
    simp [moveTo, resizeTo, scaleBy, reset, hcb]

theorem claim9_witness :
    ((moveTo demoState demoEnv 5 6).2.1 =
        [Event.selectEnd (getValue (moveTo demoState demoEnv 5 6).1 demoEnv none)]
      ∧ (moveTo demoState demoEnv 5 6).2.2 = Ret.self)
    ∧ ((resizeTo demoState demoEnv 30 40 (1/2, 1/2)).2.1 =
        [Event.selectEnd (getValue (resizeTo demoState demoEnv 30 40 (1/2, 1/2)).1 demoEnv none)]
      ∧ (resizeTo demoState demoEnv 30 40 (1/2, 1/2)).2.2 = Ret.self)
    ∧ ((scaleBy demoState demoEnv 2 (1/2, 1/2)).2.1 =
        [Event.selectEnd (getValue (scaleBy demoState demoEnv 2 (1/2, 1/2)).1 demoEnv none)]
      ∧ (scaleBy demoState demoEnv 2 (1/2, 1/2)).2.2 = Ret.self)
    ∧ ((reset demoState demoEnv).2.1 =
        [Event.selectEnd (getValue (reset demoState demoEnv).1 demoEnv none)]
      ∧ (reset demoState demoEnv).2.2 = Ret.self) :=
  claim9_methods demoState demoEnv 5 6 30 40 2 (1/2, 1/2) rfl

/-- The raw options object of the C10 scenario: zero entries in each size. -/
def rawZeroSizes : RawOptions :=
  { emptyRaw with
    maxSize := some (JSSize.arr 0 50 none)
    minSize := some (JSSize.arr 20 0 none)
    startSize := some (JSSize.arr 0 0 none) }

/-- C10: option parsing coerces a zero width or height entry of maxSize,
minSize or startSize to null through the `value || null` pattern, so an
explicit zero bound parses as unset; shown in general for the shared size
parser and concretely through parseOptions. -/
theorem claim10_zero_size :
    (∀ (w h : ℚ) (u : Option String) (d : String),
      ((parseSize (JSSize.arr w h u) d).width = none ↔ w = 0)
      ∧ ((parseSize (JSSize.arr w h u) d).height = none ↔ h = 0))
    ∧ parseOptions rawZeroSizes =
      Except.ok ⟨none, ⟨none, some 50, some ("px")⟩, ⟨some 20, none, some ("px")⟩,
        ⟨none, none, some ("%")⟩, ("real"), false, false, false, false⟩ := by
  constructor
  · intro w h u d
    constructor <;>
      · simp only [parseSize, zeroToNull]
        split_ifs <;> simp_all
  · rfl

theorem constrainToSize_falsy (b : Box) (maxW maxH minW minH : Option ℚ)
    (origin : ℚ × ℚ) (ratio : Option ℚ) (hr : truthyRatio ratio = false) :
    b.constrainToSize maxW maxH minW minH origin ratio =
      b.constrainToSize maxW maxH minW minH origin none := by
  have h2 : truthyRatio (none : Option ℚ) = false := rfl
  simp only [Box.constrainToSize, hr, h2, Bool.false_eq_true, if_false]

/-- C1: every normalization applies the constraint operations in the fixed
order ratio, size, boundary. At initialization the box built from the start
size is passed through the specNormalize pipeline and then centered; on
every handle-drag move step the flipped candidate box is passed through the
same pipeline, the ratio step being the identity exactly when no truthy
aspect ratio is configured (constrainToRatio with no ratio returns the box
unchanged). -/
theorem claim1_constraint_order :
    (∀ opts env, initializeBox opts env =
      (let b := specNormalize opts.aspectRatio ("height") opts.maxSize opts.minSize
        env.offsetWidth env.offsetHeight (1/2, 1/2)
        ⟨0, 0, opts.startSize.width.getD 0, opts.startSize.height.getD 0⟩
      b.move (some (env.offsetWidth / 2 - b.width / 2))
        (some (env.offsetHeight / 2 - b.height / 2))))
    ∧ (∀ st env mX mY, (onHandleMoveMoving st env mX mY).1.box =
      specNormalize
        (if truthyRatio st.options.aspectRatio then st.options.aspectRatio else none)
        (handleRatioMode st env mX mY) st.options.maxSize st.options.minSize
        env.offsetWidth env.offsetHeight (handleCandidate st env mX mY).2
        (handleCandidate st env mX mY).1)
    ∧ (∀ b origin mode, Box.constrainToRatio b none origin mode = b) := by
  refine ⟨fun opts env => rfl, fun st env mX mY => ?_, fun b origin mode => rfl⟩
  by_cases ht : truthyRatio st.options.aspectRatio = true
  · simp only [onHandleMoveMoving, specNormalize, ht, if_true, if_pos]
  · have ht2 : truthyRatio st.options.aspectRatio = false := by
      simpa using ht
    simp only [onHandleMoveMoving, specNormalize, ht2, Box.constrainToRatio,
      Bool.false_eq_true, if_false]
    rw [constrainToSize_falsy _ _ _ _ _ _ _ ht2]

/-- The raw options object passed in the C4 scenario: only an invalid
return mode. -/
def rawBogus : RawOptions := { emptyRaw with returnMode := some ("bogus") }

/-- C4 counterexample: calling setOptions on a validly configured instance
with an invalid return-mode string does raise the error synchronously, but
the call is not without effect: the resulting options state is neither the
prior parsed configuration nor the prior configuration viewed as an object,
because Object.assign already merged the invalid raw values in place. -/
theorem claim4_counterexample :
    (setOptions demoOptions rawBogus).1 = Except.error ("Invalid return mode.")
    ∧ (setOptions demoOptions rawBogus).2 ≠ OptState.parsed demoOptions
    ∧ (setOptions demoOptions rawBogus).2 ≠ OptState.hybrid (toRawOptions demoOptions) := by
  refine ⟨rfl, ?_, ?_⟩ <;> decide

/-- C4 as amended: with an invalid return-mode string the error is raised
synchronously both by the constructor (which then creates no instance
state) and by setOptions; but after a failed setOptions the instance is
left on the in-place merged raw object, whose returnMode field holds the
invalid string, not on the prior valid configuration. -/
theorem claim4_amended (st : Options) (opts : RawOptions) (s : String)
    (hs : opts.returnMode = some s)
    (hbad : ¬(jsToLower s = ("real" : String) ∨ jsToLower s = ("ratio" : String)
      ∨ jsToLower s = ("raw" : String))) :
    (setOptions st opts).1 = Except.error ("Invalid return mode.")
    ∧ (setOptions st opts).2 = OptState.hybrid (objectAssign (toRawOptions st) opts)
    ∧ (objectAssign (toRawOptions st) opts).returnMode = some s
    ∧ (∀ raw e, parseOptions raw = Except.error e →
        constructorParse (some raw) = Except.error e) := by
  have hm : (objectAssign (toRawOptions st) opts).returnMode = some s := by
    simp [objectAssign, hs, Option.or]
  have hp : parseOptions (objectAssign (toRawOptions st) opts) =
      Except.error ("Invalid return mode.") := by
    simp only [parseOptions, parseReturnMode, hm]
    rw [if_neg hbad]
  refine ⟨?_, ?_, hm, fun raw e h => h⟩ <;>
    simp [setOptions, hp]

theorem claim4_witness :
    (setOptions demoOptions rawBogus).1 = Except.error ("Invalid return mode.")
    ∧ (setOptions demoOptions rawBogus).2 =
        OptState.hybrid (objectAssign (toRawOptions demoOptions) rawBogus)
    ∧ (objectAssign (toRawOptions demoOptions) rawBogus).returnMode = some ("bogus")
    ∧ (∀ raw e, parseOptions raw = Except.error e →
        constructorParse (some raw) = Except.error e) :=
  claim4_amended demoOptions rawBogus ("bogus") rfl (by decide)

/-- C3 counterexample: the overlay click-without-drag gesture at (40, 40)
does restore the saved rectangle, but the gesture is not notification-free:
the synthetic resize start at pointer-down already fired onSelectStart with
the 1 by 1 rectangle snapshot, refuting that neither onSelectStart nor
onSelectEnd is fired for the gesture. -/
theorem claim3_counterexample :
    (overlayClickGesture demoState demoEnv 40 40).1.box = demoState.box
    ∧ (overlayClickGesture demoState demoEnv 40 40).2 =
        [Event.selectStart (some ⟨40, 40, 1, 1⟩)]
    ∧ (overlayClickGesture demoState demoEnv 40 40).2 ≠ ([] : List Event) := by
  have hse : seHandle = ⟨(1, 1), (0, 1, 1, 0), ("se")⟩ := rfl
  refine ⟨?_, ?_, ?_⟩ <;>
    norm_num [overlayClickGesture, overlayMouseDown, overlayMouseUp,
      onHandleMoveStart, onHandleMoveEnd, getValue, demoState, demoEnv,
      demoOptions, Box.width, Box.height, mathRound, hse]
  rw [if_neg (by decide), if_neg (by decide)]

/-- C3 as amended: an overlay gesture that ends with the rectangle still
exactly 1 by 1 restores the saved rectangle and the pointer-up step fires
nothing, in particular no onSelectEnd; but onSelectStart was already fired
at pointer-down by the synthetic resize start when that callback is
configured. A gesture whose rectangle is no longer 1 by 1 ends as a normal
resize end through onHandleMoveEnd, which emits onSelectEnd. -/
theorem claim3_amended (st : CoreState) (env : Env) (cx cy : ℚ)
    (st2 : CoreState) (tmp : Box) :
    ((overlayClickGesture st env cx cy).1.box = st.box)
    ∧ ((overlayClickGesture st env cx cy).2 = (overlayMouseDown st env cx cy).2.2)
    ∧ ((overlayMouseDown st env cx cy).2.2 =
        if st.options.onSelectStart then
          [Event.selectStart (getValue (overlayMouseDown st env cx cy).1 env none)]
        else [])
    ∧ (st2.box.width = 1 ∧ st2.box.height = 1 →
        overlayMouseUp st2 tmp env = ({ st2 with box := tmp }, []))
    ∧ (¬(st2.box.width = 1 ∧ st2.box.height = 1) →
        overlayMouseUp st2 tmp env = onHandleMoveEnd st2 env) := by
  refine ⟨?_, ?_, rfl, ?_, ?_⟩
  · simp [overlayClickGesture, overlayMouseDown, overlayMouseUp,
      onHandleMoveStart, Box.width, Box.height]
  · simp [overlayClickGesture, overlayMouseDown, overlayMouseUp,
      onHandleMoveStart, Box.width, Box.height]
  · intro hsz
    simp [overlayMouseUp, hsz]
  · intro hsz
    simp [overlayMouseUp, hsz]

/-- Demo state right after an overlay pointer-down at (40, 40): the live
box is the degenerate 1 by 1 box. -/
def stSmall : CoreState := { demoState with box := ⟨40, 40, 41, 41⟩ }

theorem claim3_witness :
    overlayMouseUp stSmall (⟨10, 10, 60, 60⟩ : Box) demoEnv =
      ({ stSmall with box := (⟨10, 10, 60, 60⟩ : Box) }, [])
    ∧ overlayMouseUp demoState (⟨40, 40, 41, 41⟩ : Box) demoEnv =
        onHandleMoveEnd demoState demoEnv :=
  ⟨(claim3_amended demoState demoEnv 40 40 stSmall ⟨10, 10, 60, 60⟩).2.2.2.1
      (by norm_num [stSmall, demoState, Box.width, Box.height]),
   (claim3_amended demoState demoEnv 40 40 demoState ⟨40, 40, 41, 41⟩).2.2.2.2
      (by norm_num [demoState, Box.width, Box.height])⟩

theorem handleFlip_absPoint (T R B L : Bool) (ox oy : ℚ) (op : ℚ × ℚ)
    (mx my : ℚ) (raw : Box) :
    (handleFlip T R B L ox oy op mx my raw).1.getAbsolutePoint
      (handleFlip T R B L ox oy op mx my raw).2 = raw.getAbsolutePoint op := by
  simp only [handleFlip, Box.getAbsolutePoint, Prod.mk.injEq]
  split_ifs <;> constructor <;> ring

theorem flip_nonneg_x (T R B L : Bool) (hLR : (L && R) = false) (ox oy : ℚ)
    (op : ℚ × ℚ) (mx my : ℚ) (b : Box) (hx : b.x1 ≤ b.x2) :
    0 ≤ (handleFlip T R B L ox oy op mx my (handleRawBox T R B L ox oy b mx my)).1.x2
      - (handleFlip T R B L ox oy op mx my (handleRawBox T R B L ox oy b mx my)).1.x1 := by
  cases L
  · cases R
    · simp [handleRawBox, handleFlip]
      linarith
    · simp only [handleRawBox, handleFlip, Bool.or_true, Bool.or_false,
        Bool.false_or, if_true, if_false]
      by_cases hlt : mx < ox <;> simp [hlt] <;> linarith
  · cases R
    · simp only [handleRawBox, handleFlip, Bool.true_or, Bool.or_false,
        Bool.false_or, if_true, if_false]
      by_cases hgt : mx > ox <;> simp [hgt] <;> linarith
    · simp at hLR

theorem flip_nonneg_y (T R B L : Bool) (hTB : (T && B) = false) (ox oy : ℚ)
    (op : ℚ × ℚ) (mx my : ℚ) (b : Box) (hy : b.y1 ≤ b.y2) :
    0 ≤ (handleFlip T R B L ox oy op mx my (handleRawBox T R B L ox oy b mx my)).1.y2
      - (handleFlip T R B L ox oy op mx my (handleRawBox T R B L ox oy b mx my)).1.y1 := by
  cases T
  · cases B
    · simp [handleRawBox, handleFlip]
      linarith
    · simp only [handleRawBox, handleFlip, Bool.or_true, Bool.or_false,
        Bool.false_or, if_true, if_false]
      by_cases hlt : my < oy <;> simp [hlt] <;> linarith
  · cases B
    · simp only [handleRawBox, handleFlip, Bool.true_or, Bool.or_false,
        Bool.false_or, if_true, if_false]
      by_cases hgt : my > oy <;> simp [hgt] <;> linarith
    · simp at hTB

theorem flip_swap_left (T R B : Bool) (ox oy : ℚ) (op : ℚ × ℚ) (mx my : ℚ)
    (raw : Box) (hgt : mx > ox) :
    (handleFlip T R B true ox oy op mx my raw).1.x1 = raw.x2
    ∧ (handleFlip T R B true ox oy op mx my raw).1.x2 = raw.x1
    ∧ (handleFlip T R B true ox oy op mx my raw).2.1 = 1 - op.1 := by
  simp [handleFlip, hgt]

theorem flip_swap_right (T B : Bool) (ox oy : ℚ) (op : ℚ × ℚ) (mx my : ℚ)
    (raw : Box) (hlt : mx < ox) :
    (handleFlip T true B false ox oy op mx my raw).1.x1 = raw.x2
    ∧ (handleFlip T true B false ox oy op mx my raw).1.x2 = raw.x1
    ∧ (handleFlip T true B false ox oy op mx my raw).2.1 = 1 - op.1 := by
  simp [handleFlip, hlt]

theorem flip_swap_top (R B L : Bool) (ox oy : ℚ) (op : ℚ × ℚ) (mx my : ℚ)
    (raw : Box) (hgt : my > oy) :
    (handleFlip true R B L ox oy op mx my raw).1.y1 = raw.y2
    ∧ (handleFlip true R B L ox oy op mx my raw).1.y2 = raw.y1
    ∧ (handleFlip true R B L ox oy op mx my raw).2.2 = 1 - op.2 := by
  simp [handleFlip, hgt]

theorem flip_swap_bottom (R L : Bool) (ox oy : ℚ) (op : ℚ × ℚ) (mx my : ℚ)
    (raw : Box) (hlt : my < oy) :
    (handleFlip false R true L ox oy op mx my raw).1.y1 = raw.y2
    ∧ (handleFlip false R true L ox oy op mx my raw).1.y2 = raw.y1
    ∧ (handleFlip false R true L ox oy op mx my raw).2.2 = 1 - op.2 := by
  simp [handleFlip, hlt]

theorem handles_exclusive :
    ∀ h ∈ HANDLES, (leftMovable h && rightMovable h) = false
      ∧ (topMovable h && bottomMovable h) = false := by decide

/-- C2: on a handle-drag move step, when the movable edge crosses past the
captured anchor coordinate (pointer beyond the anchor x for a left-movable
edge, short of it for a right-movable edge, and the analogue on the y
axis), the corner values of that axis are swapped and the anchor ratio on
that axis becomes one minus its value; the resulting box has non-negative
signed width and height (so width() and height() are the plain corner
differences), and the anchor resolves to the same absolute position
through getAbsolutePoint before and after the flip. -/
theorem claim2_flip (h : Handle) (hm : h ∈ HANDLES) (op : ℚ × ℚ) (ox oy : ℚ)
    (b : Box) (mx my : ℚ) (hx : b.x1 ≤ b.x2) (hy : b.y1 ≤ b.y2)
    (raw nb : Box) (no : ℚ × ℚ)
    (hraw : raw = handleRawBox (topMovable h) (rightMovable h) (bottomMovable h)
      (leftMovable h) ox oy b mx my)
    (hnb : nb = (handleFlip (topMovable h) (rightMovable h) (bottomMovable h)
      (leftMovable h) ox oy op mx my raw).1)
    (hno : no = (handleFlip (topMovable h) (rightMovable h) (bottomMovable h)
      (leftMovable h) ox oy op mx my raw).2) :
    0 ≤ nb.x2 - nb.x1 ∧ 0 ≤ nb.y2 - nb.y1
    ∧ nb.getAbsolutePoint no = raw.getAbsolutePoint op
    ∧ (leftMovable h = true → mx > ox →
        nb.x1 = raw.x2 ∧ nb.x2 = raw.x1 ∧ no.1 = 1 - op.1)
    ∧ (rightMovable h = true → mx < ox →
        nb.x1 = raw.x2 ∧ nb.x2 = raw.x1 ∧ no.1 = 1 - op.1)
    ∧ (topMovable h = true → my > oy →
        nb.y1 = raw.y2 ∧ nb.y2 = raw.y1 ∧ no.2 = 1 - op.2)
    ∧ (bottomMovable h = true → my < oy →
        nb.y1 = raw.y2 ∧ nb.y2 = raw.y1 ∧ no.2 = 1 - op.2) := by
  obtain ⟨hLR, hTB⟩ := handles_exclusive h hm
  subst hnb hno hraw
  refine ⟨flip_nonneg_x _ _ _ _ hLR ox oy op mx my b hx,
    flip_nonneg_y _ _ _ _ hTB ox oy op mx my b hy,
    handleFlip_absPoint _ _ _ _ ox oy op mx my _, ?_, ?_, ?_, ?_⟩
  · intro hL hgt
    rw [hL]
    exact flip_swap_left _ _ _ ox oy op mx my _ hgt
  · intro hR hlt
    have hL : leftMovable h = false := by
      cases hv : leftMovable h
      · rfl
      · rw [hv, hR] at hLR
        simp at hLR
    rw [hR, hL]
    exact flip_swap_right _ _ ox oy op mx my _ hlt
  · intro hT hgt
    rw [hT]
    exact flip_swap_top _ _ _ ox oy op mx my _ hgt
  · intro hB hlt
    have hT : topMovable h = false := by
      cases hv : topMovable h
      · rfl
      · rw [hv, hB] at hTB
        simp at hTB
    rw [hB, hT]
    exact flip_swap_bottom _ _ ox oy op mx my _ hlt

/-- The north-west handle, used by the concrete flip scenario. -/
def hNW : Handle := ⟨(0, 0), (1, 0, 0, 1), ("nw")⟩

theorem claim2_witness :
    0 ≤ (handleFlip (topMovable hNW) (rightMovable hNW) (bottomMovable hNW)
        (leftMovable hNW) 100 100 (1, 1) 120 130
        (handleRawBox (topMovable hNW) (rightMovable hNW) (bottomMovable hNW)
          (leftMovable hNW) 100 100 ⟨0, 0, 100, 100⟩ 120 130)).1.x2
      - (handleFlip (topMovable hNW) (rightMovable hNW) (bottomMovable hNW)
        (leftMovable hNW) 100 100 (1, 1) 120 130
        (handleRawBox (topMovable hNW) (rightMovable hNW) (bottomMovable hNW)
          (leftMovable hNW) 100 100 ⟨0, 0, 100, 100⟩ 120 130)).1.x1
    ∧ (handleFlip (topMovable hNW) (rightMovable hNW) (bottomMovable hNW)
        (leftMovable hNW) 100 100 (1, 1) 120 130
        (handleRawBox (topMovable hNW) (rightMovable hNW) (bottomMovable hNW)
          (leftMovable hNW) 100 100 ⟨0, 0, 100, 100⟩ 120 130)).1.getAbsolutePoint
        (handleFlip (topMovable hNW) (rightMovable hNW) (bottomMovable hNW)
          (leftMovable hNW) 100 100 (1, 1) 120 130
          (handleRawBox (topMovable hNW) (rightMovable hNW) (bottomMovable hNW)
            (leftMovable hNW) 100 100 ⟨0, 0, 100, 100⟩ 120 130)).2 =
      (handleRawBox (topMovable hNW) (rightMovable hNW) (bottomMovable hNW)
        (leftMovable hNW) 100 100 ⟨0, 0, 100, 100⟩ 120 130).getAbsolutePoint (1, 1) :=
  ⟨(claim2_flip hNW (by decide) (1, 1) 100 100 ⟨0, 0, 100, 100⟩ 120 130
      (by norm_num) (by norm_num) _ _ _ rfl rfl rfl).1,
   (claim2_flip hNW (by decide) (1, 1) 100 100 ⟨0, 0, 100, 100⟩ 120 130
      (by norm_num) (by norm_num) _ _ _ rfl rfl rfl).2.2.1⟩

theorem box_width_nonneg (b : Box) : 0 ≤ b.width := abs_nonneg _

theorem box_height_nonneg (b : Box) : 0 ≤ b.height := abs_nonneg _

theorem box_resize_width (b : Box) (w h : ℚ) (o : ℚ × ℚ) :
    (b.resize w h o).width = |w| := by
  simp [Box.resize, Box.width]

theorem box_resize_height (b : Box) (w h : ℚ) (o : ℚ × ℚ) :
    (b.resize w h o).height = |h| := by
  simp [Box.resize, Box.height]

theorem vert_cond_iff (r w oy my y1 y2 : ℚ) (hr : 0 < r) (hw : 0 ≤ w)
    (hcase : (y1 = oy ∧ y2 = my ∧ oy ≤ my) ∨ (y1 = my ∧ y2 = oy ∧ my ≤ oy)) :
    (my > y1 + r * w ∨ my < y2 - r * w) ↔ |my - oy| > r * w := by
  have hrw : 0 ≤ r * w := mul_nonneg hr.le hw
  rcases hcase with ⟨h1, h2, h3⟩ | ⟨h1, h2, h3⟩ <;> subst h1 <;> subst h2
  · rw [abs_of_nonneg (by linarith)]
    constructor
    · rintro (hc | hc) <;> linarith
    · intro hc
      left
      linarith
  · rw [abs_of_nonpos (by linarith)]
    constructor
    · rintro (hc | hc) <;> linarith
    · intro hc
      right
      linarith

theorem cand_y_cases (T R B L : Bool) (hT : (T || B) = true) (hTB : (T && B) = false)
    (ox oy : ℚ) (op : ℚ × ℚ) (mx my : ℚ) (b : Box) :
    ((handleFlip T R B L ox oy op mx my (handleRawBox T R B L ox oy b mx my)).1.y1 = oy
      ∧ (handleFlip T R B L ox oy op mx my (handleRawBox T R B L ox oy b mx my)).1.y2 = my
      ∧ oy ≤ my)
    ∨ ((handleFlip T R B L ox oy op mx my (handleRawBox T R B L ox oy b mx my)).1.y1 = my
      ∧ (handleFlip T R B L ox oy op mx my (handleRawBox T R B L ox oy b mx my)).1.y2 = oy
      ∧ my ≤ oy) := by
  cases T
  · cases B
    · simp at hT
    · by_cases hlt : my < oy
      · right
        refine ⟨?_, ?_, le_of_lt hlt⟩ <;> simp [handleRawBox, handleFlip, hlt]
      · left
        refine ⟨?_, ?_, le_of_not_lt hlt⟩ <;> simp [handleRawBox, handleFlip, hlt]
  · cases B
    · by_cases hgt : my > oy
      · left
        refine ⟨?_, ?_, le_of_lt hgt⟩ <;> simp [handleRawBox, handleFlip, hgt]
      · right
        refine ⟨?_, ?_, le_of_not_lt hgt⟩ <;> simp [handleRawBox, handleFlip, hgt]
    · simp at hTB

theorem selectRatioMode_multi (r : ℚ) (TB : Bool) (c : Box) (my : ℚ) :
    (selectRatioMode r true TB c my = ("width")) ↔
      (my > c.y1 + r * c.width ∨ my < c.y2 - r * c.width) := by
  have hne : (("height" : String) = ("width" : String)) = False := eq_false (by decide)
  simp only [selectRatioMode, if_true]
  split_ifs with hc <;> simp_all

theorem selectRatioMode_vertical (r : ℚ) (c : Box) (my : ℚ) :
    selectRatioMode r false true c my = ("width") := rfl

theorem selectRatioMode_horizontal (r : ℚ) (c : Box) (my : ℚ) :
    selectRatioMode r false false c my = ("height") := rfl

/-- C8: with an active aspect ratio, the mode handed to constrainToRatio is
chosen as follows. For corner handles (both axes movable) it is width
exactly when the pointer lies further from the anchor vertically than the
ratio line through the anchor allows, that is when the vertical pointer
distance from the captured anchor exceeds ratio times the candidate width.
For the n and s handles (vertical axis only) it is always width, and mode
width derives the width from the height (width becomes height divided by
the ratio, height is kept). For the e and w handles (horizontal axis only)
it is always height, and mode height derives the height from the width
(height becomes width times the ratio, width is kept). -/
theorem claim8_ratio_mode (h : Handle) (hm : h ∈ HANDLES) (r : ℚ) (hr : 0 < r)
    (st : CoreState) (env : Env) (mX mY : ℚ)
    (hah : st.activeHandle.handle = h)
    (hr2 : st.options.aspectRatio = some r) :
    (((leftMovable h || rightMovable h) && (topMovable h || bottomMovable h)) = true →
      (handleRatioMode st env mX mY = ("width") ↔
        |(handleMouse env mX mY).2 - st.activeHandle.originY| >
          r * (handleCandidate st env mX mY).1.width))
    ∧ ((topMovable h || bottomMovable h) = true →
        (leftMovable h || rightMovable h) = false →
        handleRatioMode st env mX mY = ("width"))
    ∧ ((topMovable h || bottomMovable h) = false →
        (leftMovable h || rightMovable h) = true →
        handleRatioMode st env mX mY = ("height"))
    ∧ (∀ (b : Box) (o : ℚ × ℚ),
        (b.constrainToRatio (some r) o ("width")).width = b.height / r
        ∧ (b.constrainToRatio (some r) o ("width")).height = b.height)
    ∧ (∀ (b : Box) (o : ℚ × ℚ),
        (b.constrainToRatio (some r) o ("height")).width = b.width
        ∧ (b.constrainToRatio (some r) o ("height")).height = b.width * r) := by
  obtain ⟨hLRex, hTBex⟩ := handles_exclusive h hm
  have hcr : ∀ (b : Box) (o : ℚ × ℚ),
      b.constrainToRatio (some r) o ("width") = b.resize (b.height / r) b.height o := by
    intro b o
    simp [Box.constrainToRatio]
  have hcr2 : ∀ (b : Box) (o : ℚ × ℚ),
      b.constrainToRatio (some r) o ("height") = b.resize b.width (b.width * r) o := by
    intro b o
    have hne : (("height" : String) = ("width" : String)) = False := eq_false (by decide)
    simp [Box.constrainToRatio, hne]
  refine ⟨?_, ?_, ?_, ?_, ?_⟩
  · intro hmulti
    have hTB' : (topMovable h || bottomMovable h) = true :=
      (Bool.and_eq_true _ _ ▸ hmulti).2
    have hmode : handleRatioMode st env mX mY =
        selectRatioMode r true (topMovable h || bottomMovable h)
          (handleCandidate st env mX mY).1 (handleMouse env mX mY).2 := by
      simp [handleRatioMode, hah, hr2, hmulti]
    have hcand : (handleCandidate st env mX mY).1 =
        (handleFlip (topMovable h) (rightMovable h) (bottomMovable h) (leftMovable h)
          st.activeHandle.originX st.activeHandle.originY st.activeHandle.originPoint
          (handleMouse env mX mY).1 (handleMouse env mX mY).2
          (handleRawBox (topMovable h) (rightMovable h) (bottomMovable h) (leftMovable h)
            st.activeHandle.originX st.activeHandle.originY st.box
            (handleMouse env mX mY).1 (handleMouse env mX mY).2)).1 := by
      simp [handleCandidate, hah]
    have hcases := cand_y_cases (topMovable h) (rightMovable h) (bottomMovable h)
      (leftMovable h) hTB' hTBex st.activeHandle.originX st.activeHandle.originY
      st.activeHandle.originPoint (handleMouse env mX mY).1 (handleMouse env mX mY).2
      st.box
    rw [← hcand] at hcases
    rw [hmode, selectRatioMode_multi]
    exact vert_cond_iff r (handleCandidate st env mX mY).1.width
      st.activeHandle.originY (handleMouse env mX mY).2 _ _ hr
      (box_width_nonneg _) hcases
  · intro hTB' hLR'
    simp [handleRatioMode, hah, hr2, hLR', hTB', selectRatioMode_vertical]
  · intro hTB' hLR'
    simp [handleRatioMode, hah, hr2, hLR', hTB', selectRatioMode_horizontal]
  · intro b o
    rw [hcr b o]
    constructor
    · rw [box_resize_width]
      exact abs_of_nonneg (div_nonneg (box_height_nonneg b) hr.le)
    · rw [box_resize_height]
      exact abs_of_nonneg (box_height_nonneg b)
  · intro b o
    rw [hcr2 b o]
    constructor
    · rw [box_resize_width]
      exact abs_of_nonneg (box_width_nonneg b)
    · rw [box_resize_height]
      exact abs_of_nonneg (mul_nonneg (box_width_nonneg b) hr.le)

/-- Demo state with a square aspect ratio active and a south-east resize
session, as in the spec scenario dragging the se handle. -/
def stC8 : CoreState :=
  { demoState with options := { demoOptions with aspectRatio := some 1 } }

theorem claim8_witness :
    (handleRatioMode stC8 demoEnv 150 80 = ("width") ↔
      |(handleMouse demoEnv 150 80).2 - stC8.activeHandle.originY| >
        1 * (handleCandidate stC8 demoEnv 150 80).1.width)
    ∧ (∀ (b : Box) (o : ℚ × ℚ),
        (b.constrainToRatio (some 1) o ("width")).width = b.height / 1
        ∧ (b.constrainToRatio (some 1) o ("width")).height = b.height) :=
  ⟨(claim8_ratio_mode seHandle (List.get_mem HANDLES 4 (by decide)) 1 (by norm_num)
      stC8 demoEnv 150 80 rfl rfl).1 (by decide),
   (claim8_ratio_mode seHandle (List.get_mem HANDLES 4 (by decide)) 1 (by norm_num)
      stC8 demoEnv 150 80 rfl rfl).2.2.2.1⟩

end ASel
